import Mathlib

/-!
Shallow embedding of the `council-of-bots-rs` simulation core
(`council-core/src/{galaxy,event,voting,templates,scoring}.rs`) and proofs of
the specified properties.  Machine floats (`f32` vote weights) are modelled by
exact rationals; `u32`/`i32` counters by `Nat`/`Int` (no overflow is relevant
to any property below); the trait-object random source by an explicit stream
of unsigned 32-bit draws.
-/

namespace Council

/-! ## Data model (`galaxy.rs`, `event.rs`) -/

inductive SectorType where
  | Habitable
  | AsteroidField
  | Nebula
  | Void
  | Anomaly
deriving DecidableEq, Repr

structure Sector where
  name : String
  sector_type : SectorType
deriving DecidableEq, Repr

structure Species where
  name : String
  traits : List String
deriving DecidableEq, Repr

inductive Relation where
  | Unknown
  | Hostile
  | Wary
  | Neutral
  | Friendly
  | Allied
deriving DecidableEq, Repr

structure Discovery where
  name : String
  category : String
deriving DecidableEq, Repr

structure Threat where
  name : String
  severity : Nat
  rounds_active : Nat
deriving DecidableEq, Repr

inductive StateChange where
  | AddSector (sector : Sector)
  | AddSpecies (species : Species)
  | SetRelation (species : String) (relation : Relation)
  | AddDiscovery (discovery : Discovery)
  | AddThreat (threat : Threat)
  | RemoveThreat (name : String)
  | ModifyThreatSeverity (name : String) (delta : Int)
deriving DecidableEq, Repr

/-- `GalaxyState`; the `HashMap<String, Relation>` field `relations` is
modelled as an association list in which an insert replaces any previous
binding for the key (the map has no observable iteration order in the
properties below). -/
structure GalaxyState where
  round : Nat
  explored_sectors : List Sector
  known_species : List Species
  relations : List (String × Relation)
  discoveries : List Discovery
  threats : List Threat
deriving DecidableEq, Repr

/-- `HashMap::insert`. -/
def mapInsert (m : List (String × Relation)) (k : String) (v : Relation) :
    List (String × Relation) :=
  (k, v) :: m.filter (fun p => p.1 ≠ k)

/-- `HashMap::get`. -/
def mapGet (m : List (String × Relation)) (k : String) : Option Relation :=
  (m.find? (fun p => p.1 = k)).map Prod.snd

/-- `GalaxyState::new`. -/
def GalaxyState.new : GalaxyState :=
  { round := 0
    explored_sectors := [{ name := "Home Sector", sector_type := SectorType.Habitable }]
    known_species := []
    relations := []
    discoveries := []
    threats := [] }

/-- In-place update of the first threat with the given name
(`threats.iter_mut().find(..)` followed by the severity assignment);
the new severity is `(severity as i32 + delta).max(0) as u32`. -/
def setFirstThreatSeverity (name : String) (delta : Int) :
    List Threat → List Threat
  | [] => []
  | t :: ts =>
    if t.name = name then
      { t with severity := ((t.severity : Int) + delta).toNat } :: ts
    else
      t :: setFirstThreatSeverity name delta ts

/-- One arm of the `match` inside `GalaxyState::apply_changes`. -/
def applyChange (g : GalaxyState) : StateChange → GalaxyState
  | StateChange.AddSector sector =>
    if g.explored_sectors.any (fun s => s.name = sector.name) then g
    else { g with explored_sectors := g.explored_sectors ++ [sector] }
  | StateChange.AddSpecies species =>
    if g.known_species.any (fun s => s.name = species.name) then g
    else
      { g with
        known_species := g.known_species ++ [species]
        relations := mapInsert g.relations species.name Relation.Unknown }
  | StateChange.SetRelation species relation =>
    { g with relations := mapInsert g.relations species relation }
  | StateChange.AddDiscovery discovery =>
    { g with discoveries := g.discoveries ++ [discovery] }
  | StateChange.AddThreat threat =>
    if g.threats.any (fun t => t.name = threat.name) then g
    else { g with threats := g.threats ++ [threat] }
  | StateChange.RemoveThreat name =>
    { g with threats := g.threats.filter (fun t => ¬ t.name = name) }
  | StateChange.ModifyThreatSeverity name delta =>
    match g.threats.find? (fun t => t.name = name) with
    | none => g
    | some t =>
      let newSeverity := ((t.severity : Int) + delta).toNat
      let updated := setFirstThreatSeverity name delta g.threats
      if newSeverity = 0 then
        { g with threats := updated.filter (fun t => ¬ t.name = name) }
      else
        { g with threats := updated }

/-- `GalaxyState::apply_changes`: applies each change in order. -/
def apply_changes (g : GalaxyState) (changes : List StateChange) : GalaxyState :=
  changes.foldl applyChange g

/-- `GalaxyState::process_threats`: one pass over the threats, incrementing
`rounds_active` and accumulating `penalty -= severity * 3`; returns the
mutated state together with the penalty. -/
def process_threats (g : GalaxyState) : GalaxyState × Int :=
  let step :=
    g.threats.foldl
      (fun (acc : List Threat × Int) t =>
        (acc.1 ++ [{ t with rounds_active := t.rounds_active + 1 }],
         acc.2 - (t.severity * 3 : Int)))
      ([], 0)
  ({ g with threats := step.1 }, step.2)

/-! ## Events (`event.rs`) -/

structure Outcome where
  description : String
  score_delta : Int
  state_changes : List StateChange
deriving DecidableEq, Repr

structure ResponseOption where
  description : String
  outcome : Outcome
deriving DecidableEq, Repr

structure Event where
  description : String
  relevant_expertise : List (String × ℚ)
  options : List ResponseOption
deriving DecidableEq, Repr

/-! ## Voting (`voting.rs`) -/

structure Vote where
  bot_name : String
  chosen_option : Nat
  weight : ℚ
deriving DecidableEq, Repr

/-- `BASE_WEIGHT: f32 = 0.1`. -/
def BASE_WEIGHT : ℚ := 0.1

/-- `calculate_vote_weight`: `BASE_WEIGHT` plus, for each entry of the
event's `relevant_expertise` whose tag the bot also declares,
`event_weight * proficiency` (first matching declaration). -/
def calculate_vote_weight (expertise : List (String × ℚ)) (event : Event) : ℚ :=
  let expertise_bonus :=
    (event.relevant_expertise.filterMap
      (fun te =>
        (expertise.find? (fun be => be.1 = te.1)).map
          (fun be => te.2 * be.2))).sum
  BASE_WEIGHT + expertise_bonus

/-- One iteration of the tallying loop of `resolve_votes`: an out-of-range
vote is skipped, an in-range vote adds its weight to its option's slot. -/
def tallyStep (num_options : Nat) (totals : List ℚ) (v : Vote) : List ℚ :=
  if v.chosen_option < num_options then
    totals.set v.chosen_option (totals.getD v.chosen_option 0 + v.weight)
  else totals

/-- The tallying loop of `resolve_votes`, starting from `num_options`
zeroed slots. -/
def tallies (votes : List Vote) (num_options : Nat) : List ℚ :=
  votes.foldl (tallyStep num_options) (List.replicate num_options 0)

/-- `a.partial_cmp(b).unwrap_or(Ordering::Equal)` on finite (non-NaN)
weights. -/
def cmpQ (a b : ℚ) : Ordering :=
  if a < b then Ordering.lt else if a = b then Ordering.eq else Ordering.gt

/-- The comparator passed to `max_by` in `resolve_votes`: compare weights,
then compare indices reversed so that the lower index wins ties. -/
def resolveCmp (a b : Nat × ℚ) : Ordering :=
  (cmpQ a.2 b.2).then (compare b.1 a.1)

/-- One comparison step of `Iterator::max_by`: the accumulator is kept only
when it compares strictly greater, so of comparator-equal elements the later
one survives. -/
def resolvePick (m x : Nat × ℚ) : Nat × ℚ :=
  if resolveCmp m x = Ordering.gt then m else x

/-- `Iterator::max_by` over the enumerated totals. -/
def maxByResolve (l : List (Nat × ℚ)) : Option (Nat × ℚ) :=
  l.foldl
    (fun acc x =>
      match acc with
      | none => some x
      | some m => some (resolvePick m x))
    none

/-- `resolve_votes`. -/
def resolve_votes (votes : List Vote) (num_options : Nat) : Nat :=
  if num_options = 0 then 0
  else
    ((maxByResolve (tallies votes num_options).enum).map Prod.fst).getD 0

/-! ## Relation step functions (`templates.rs`) -/

/-- `improve_relation`. -/
def improve_relation : Relation → Relation
  | Relation.Hostile => Relation.Wary
  | Relation.Unknown => Relation.Neutral
  | Relation.Wary => Relation.Neutral
  | Relation.Neutral => Relation.Friendly
  | Relation.Friendly => Relation.Allied
  | Relation.Allied => Relation.Allied

/-- `degrade_relation`. -/
def degrade_relation : Relation → Relation
  | Relation.Allied => Relation.Friendly
  | Relation.Friendly => Relation.Neutral
  | Relation.Neutral => Relation.Wary
  | Relation.Wary => Relation.Hostile
  | Relation.Unknown => Relation.Hostile
  | Relation.Hostile => Relation.Hostile

/-- `greatly_improve_relation`. -/
def greatly_improve_relation (current : Relation) : Relation :=
  improve_relation (improve_relation current)

/-! ## Score tracking (`scoring.rs`) -/

structure ScoreEvent where
  round : Nat
  delta : Int
  reason : String
deriving DecidableEq, Repr

structure ScoreTracker where
  total : Int
  history : List ScoreEvent
deriving DecidableEq, Repr

/-- `ScoreTracker::add`. -/
def ScoreTracker.add (t : ScoreTracker) (round : Nat) (delta : Int)
    (reason : String) : ScoreTracker :=
  { total := t.total + delta
    history := t.history ++ [{ round := round, delta := delta, reason := reason }] }

/-- One comparison of `history.iter().max_by_key(|e| e.delta)`: the
accumulator is kept only when its key is strictly greater, so of key-equal
entries the later one survives. -/
def bestPick (m e : ScoreEvent) : ScoreEvent :=
  if m.delta > e.delta then m else e

/-- One comparison of `history.iter().min_by_key(|e| e.delta)`: the
accumulator is replaced only when the new entry's key is strictly smaller,
so of key-equal entries the earlier one survives. -/
def worstPick (m e : ScoreEvent) : ScoreEvent :=
  if m.delta > e.delta then e else m

/-- `ScoreTracker::best_moment` (`max_by_key` on the delta). -/
def best_moment (t : ScoreTracker) : Option ScoreEvent :=
  t.history.foldl
    (fun acc e =>
      match acc with
      | none => some e
      | some m => some (bestPick m e))
    none

/-- `ScoreTracker::worst_moment` (`min_by_key` on the delta). -/
def worst_moment (t : ScoreTracker) : Option ScoreEvent :=
  t.history.foldl
    (fun acc e =>
      match acc with
      | none => some e
      | some m => some (worstPick m e))
    none

/-! ## The pseudo-random source

The engine consumes randomness exclusively through `next_u32` draws from a
`dyn RngCore`; it is modelled as an arbitrary stream of draws together with a
position, each draw reduced mod `2^32`. -/

structure RngState where
  seq : Nat → Nat
  pos : Nat

/-- One `rng.next_u32()` draw. -/
def next_u32 (r : RngState) : Nat × RngState :=
  (r.seq r.pos % 4294967296, { r with pos := r.pos + 1 })

/-! ## Name pools (`templates.rs`, module `names`) -/

def SECTOR_PREFIXES : List String :=
  ["Alpha", "Beta", "Gamma", "Delta", "Epsilon", "Zeta", "Theta", "Omega", "Nova", "Sigma"]

def SECTOR_SUFFIXES : List String :=
  ["Quadrant", "Nebula", "Cluster", "Expanse", "Reach", "Void", "Drift", "Sector"]

def SPECIES_PREFIXES : List String :=
  ["Zor", "Krel", "Xan", "Vel", "Mur", "Thal", "Qor", "Nex", "Pax", "Dra"]

def SPECIES_SUFFIXES : List String :=
  ["ians", "oids", "ax", "uri", "eni", "oni", "ari", "eki", "oth", "ix"]

def THREAT_NAMES : List String :=
  ["Space Pirates", "Void Swarm", "Rogue AI Fleet", "Cosmic Storm",
   "Hostile Probes", "Dark Matter Entity", "Quantum Anomaly", "Stellar Plague"]

def DISCOVERY_TYPES : List String :=
  ["Ancient Archive", "Power Crystal", "Navigation Chart", "Shield Technology",
   "Propulsion Upgrade", "Communication Array", "Medical Breakthrough", "Weapons System"]

def RESEARCH_DISCOVERIES : List String :=
  ["Quantum Entanglement Drive", "Subspace Field Theory", "Graviton Lens Array",
   "Chrono-Spatial Mapping", "Plasma Containment Matrix", "Bio-Neural Computing",
   "Dark Energy Harvesting", "Dimensional Fold Navigation"]

/-- `random_sector_name`: one draw for the prefix, one for the suffix. -/
def random_sector_name (rng : RngState) : String × RngState :=
  let (d1, rng1) := next_u32 rng
  let (d2, rng2) := next_u32 rng1
  (SECTOR_PREFIXES.getD (d1 % SECTOR_PREFIXES.length) "" ++ " " ++
     SECTOR_SUFFIXES.getD (d2 % SECTOR_SUFFIXES.length) "",
   rng2)

/-- `random_species_name`. -/
def random_species_name (rng : RngState) : String × RngState :=
  let (d1, rng1) := next_u32 rng
  let (d2, rng2) := next_u32 rng1
  (SPECIES_PREFIXES.getD (d1 % SPECIES_PREFIXES.length) "" ++
     SPECIES_SUFFIXES.getD (d2 % SPECIES_SUFFIXES.length) "",
   rng2)

/-- Rust `{:?}` rendering of `Relation`, used inside event descriptions. -/
def relationDebug : Relation → String
  | Relation.Unknown => "Unknown"
  | Relation.Hostile => "Hostile"
  | Relation.Wary => "Wary"
  | Relation.Neutral => "Neutral"
  | Relation.Friendly => "Friendly"
  | Relation.Allied => "Allied"

/-! ## The template catalog

Each of the ten built-in template types is a constructor; `name`,
`is_applicable`, `weight` and `generate` are given by case analysis, exactly
mirroring the trait impls in `templates.rs`.  Vec indexing `v[draw % v.len()]`
is totalized with `getD`; every such access in the source is either into a
non-empty constant pool or guarded by `is_applicable`. -/

inductive Template where
  | UnknownSignal
  | Derelict
  | Anomaly
  | FirstContact
  | ThreatEmergence
  | ResourceScarcity
  | Artifact
  | DiplomaticRequest
  | CulturalExchange
  | TechBreakthrough
deriving DecidableEq, Repr

def Template.templateName : Template → String
  | Template.UnknownSignal => "Unknown Signal"
  | Template.Derelict => "Derelict Vessel"
  | Template.Anomaly => "Spatial Anomaly"
  | Template.FirstContact => "First Contact"
  | Template.ThreatEmergence => "Threat Emergence"
  | Template.ResourceScarcity => "Resource Scarcity"
  | Template.Artifact => "Artifact Discovery"
  | Template.DiplomaticRequest => "Diplomatic Request"
  | Template.CulturalExchange => "Cultural Exchange"
  | Template.TechBreakthrough => "Tech Breakthrough"

def Template.is_applicable (t : Template) (galaxy : GalaxyState) : Bool :=
  match t with
  | Template.UnknownSignal => galaxy.explored_sectors.length < 10
  | Template.Derelict => !galaxy.explored_sectors.isEmpty
  | Template.Anomaly => true
  | Template.FirstContact => galaxy.known_species.length < 5
  | Template.ThreatEmergence => galaxy.threats.length < 3
  | Template.ResourceScarcity => true
  | Template.Artifact => galaxy.explored_sectors.length > 1
  | Template.DiplomaticRequest => !galaxy.known_species.isEmpty
  | Template.CulturalExchange =>
    galaxy.known_species.any (fun s =>
      !(((mapGet galaxy.relations s.name).getD Relation.Unknown) = Relation.Hostile))
  | Template.TechBreakthrough => galaxy.discoveries.length ≥ 3

/-- `EventTemplate::weight`: the default of 10 (kept by `UnknownSignalTemplate`)
or the per-template override. -/
def Template.weight : Template → Nat
  | Template.UnknownSignal => 10
  | Template.Derelict => 6
  | Template.Anomaly => 8
  | Template.FirstContact => 12
  | Template.ThreatEmergence => 6
  | Template.ResourceScarcity => 5
  | Template.Artifact => 7
  | Template.DiplomaticRequest => 9
  | Template.CulturalExchange => 7
  | Template.TechBreakthrough => 7

def generateUnknownSignal (_galaxy : GalaxyState) (rng : RngState) :
    Event × RngState :=
  let (sector_name, rng1) := random_sector_name rng
  let (d3, rng2) := next_u32 rng1
  let sector_type :=
    if d3 % 4 = 0 then SectorType.Nebula
    else if d3 % 4 = 1 then SectorType.AsteroidField
    else if d3 % 4 = 2 then SectorType.Habitable
    else SectorType.Void
  ({ description :=
       "Long-range sensors detect an unusual signal emanating from an unexplored region. Analysis suggests it originates from the " ++
         sector_name ++ "."
     relevant_expertise :=
       [("science", 0.4), ("exploration", 0.4), ("engineering", 0.2)]
     options :=
       [{ description := "Dispatch a crewed expedition to investigate"
          outcome :=
            { description :=
                "The expedition successfully charts the " ++ sector_name ++
                  " and returns with valuable data."
              score_delta := 15
              state_changes :=
                [StateChange.AddSector { name := sector_name, sector_type := sector_type }] } },
        { description := "Send an unmanned probe first"
          outcome :=
            { description :=
                "The probe returns preliminary data. The region is noted for future exploration."
              score_delta := 5
              state_changes := [] } },
        { description := "Log the signal but focus on known priorities"
          outcome :=
            { description := "The signal is archived. Perhaps another time."
              score_delta := 0
              state_changes := [] } }] },
   rng2)

def generateDerelict (galaxy : GalaxyState) (rng : RngState) :
    Event × RngState :=
  let (d1, rng1) := next_u32 rng
  let sector :=
    galaxy.explored_sectors.getD (d1 % galaxy.explored_sectors.length)
      { name := "", sector_type := SectorType.Void }
  let (d2, rng2) := next_u32 rng1
  let discovery := DISCOVERY_TYPES.getD (d2 % DISCOVERY_TYPES.length) ""
  let (d3, rng3) := next_u32 rng2
  let threat := THREAT_NAMES.getD (d3 % THREAT_NAMES.length) ""
  let (d4, rng4) := next_u32 rng3
  let risky_salvage := d4 % 5 = 0
  let salvage : Outcome × RngState :=
    if risky_salvage then
      let (d5, rng5) := next_u32 rng4
      ({ description :=
           "The boarding team recovers a " ++ discovery ++
             " — but triggers dormant systems. A new threat emerges: " ++ threat ++ "."
         score_delta := 6
         state_changes :=
           [StateChange.AddDiscovery { name := discovery, category := "salvage" },
            StateChange.AddThreat
              { name := threat, severity := 1 + d5 % 3, rounds_active := 0 }] },
       rng5)
    else
      ({ description :=
           "The salvage operation is a success. The council secures a " ++
             discovery ++ " from the wreck."
         score_delta := 14
         state_changes :=
           [StateChange.AddDiscovery { name := discovery, category := "salvage" }] },
       rng4)
  ({ description :=
       "Scanners pick up a derelict vessel drifting within the " ++ sector.name ++
         ". Its hull markings don’t match any known registry."
     relevant_expertise :=
       [("exploration", 0.35), ("engineering", 0.35), ("science", 0.2), ("security", 0.1)]
     options :=
       [{ description := "Board the vessel and salvage anything useful"
          outcome := salvage.1 },
        { description := "Scan it remotely and leave it undisturbed"
          outcome :=
            { description :=
                "Long-range scans yield useful telemetry and material analysis. Low risk, modest gain."
              score_delta := 6
              state_changes := [] } },
        { description := "Mark the location and move on"
          outcome :=
            { description :=
                "The derelict is logged for future expeditions. The council stays focused on current priorities."
              score_delta := 1
              state_changes := [] } }] },
   salvage.2)

def generateAnomaly (_galaxy : GalaxyState) (rng : RngState) :
    Event × RngState :=
  let (d1, rng1) := next_u32 rng
  ({ description :=
       "A spatial anomaly has been detected nearby. It appears to be a stable wormhole or dimensional rift. Energy readings are off the charts."
     relevant_expertise :=
       [("science", 0.5), ("engineering", 0.3), ("exploration", 0.2)]
     options :=
       [{ description := "Send a research team to study it closely"
          outcome :=
            if d1 % 3 = 0 then
              { description :=
                  "The research team makes a breakthrough discovery about spatial physics!"
                score_delta := 20
                state_changes :=
                  [StateChange.AddDiscovery
                     { name := "Spatial Dynamics Theory", category := "science" }] }
            else
              { description :=
                  "The team gathers useful data, though the anomaly remains mysterious."
                score_delta := 8
                state_changes := [] } },
        { description := "Observe from a safe distance with long-range sensors"
          outcome :=
            { description := "Remote observations provide some data. Playing it safe."
              score_delta := 3
              state_changes := [] } },
        { description := "Mark as hazardous and establish exclusion zone"
          outcome :=
            { description := "The anomaly is marked on charts as a navigation hazard."
              score_delta := 0
              state_changes := [] } }] },
   rng1)

def generateFirstContact (_galaxy : GalaxyState) (rng : RngState) :
    Event × RngState :=
  let (species_name, rng1) := random_species_name rng
  let (d3, rng2) := next_u32 rng1
  let traits :=
    if d3 % 3 = 0 then ["curious", "peaceful"]
    else if d3 % 3 = 1 then ["cautious", "territorial"]
    else ["aggressive", "expansionist"]
  let is_hostile := traits.contains "aggressive"
  ({ description :=
       "Our explorers have encountered the " ++ species_name ++
         ", a previously unknown spacefaring species. Initial observations suggest they are " ++
         String.intercalate " and " traits ++ "."
     relevant_expertise :=
       [("diplomacy", 0.5), ("culture", 0.3), ("linguistics", 0.2)]
     options :=
       [{ description := "Initiate peaceful diplomatic contact"
          outcome :=
            if is_hostile then
              { description :=
                  "The " ++ species_name ++
                    " view our overtures as weakness and become hostile."
                score_delta := -10
                state_changes :=
                  [StateChange.AddSpecies { name := species_name, traits := traits },
                   StateChange.SetRelation species_name Relation.Hostile] }
            else
              { description :=
                  "The " ++ species_name ++ " respond positively. A new friendship begins!"
                score_delta := 15
                state_changes :=
                  [StateChange.AddSpecies { name := species_name, traits := traits },
                   StateChange.SetRelation species_name Relation.Friendly] } },
        { description := "Maintain cautious observation before contact"
          outcome :=
            { description :=
                "We observe the " ++ species_name ++
                  " from afar, learning about them before deciding on contact."
              score_delta := 5
              state_changes :=
                [StateChange.AddSpecies { name := species_name, traits := traits }] } },
        { description := "Withdraw and avoid contact for now"
          outcome :=
            { description := "We retreat quietly. The species remains unaware of us."
              score_delta := 0
              state_changes := [] } }] },
   rng2)

def generateThreatEmergence (_galaxy : GalaxyState) (rng : RngState) :
    Event × RngState :=
  let (d1, rng1) := next_u32 rng
  let threat_name := THREAT_NAMES.getD (d1 % THREAT_NAMES.length) ""
  let (d2, rng2) := next_u32 rng1
  let severity := d2 % 3 + 1
  let (d3, rng3) := next_u32 rng2
  ({ description :=
       "Alert! " ++ threat_name ++
         " have been detected approaching our territory. Threat assessment: severity level " ++
         toString severity ++ "."
     relevant_expertise :=
       [("military", 0.5), ("strategy", 0.3), ("engineering", 0.2)]
     options :=
       [{ description := "Confront the threat with immediate military response"
          outcome :=
            if d3 % 2 = 0 then
              { description :=
                  "Our forces engage the " ++ threat_name ++
                    ". After a fierce battle, the threat is neutralized!"
                score_delta := 12
                state_changes := [] }
            else
              { description :=
                  "Our forces engage but cannot fully repel the " ++ threat_name ++
                    ". The threat persists."
                score_delta := -5
                state_changes :=
                  [StateChange.AddThreat
                     { name := threat_name, severity := severity / 2 + 1, rounds_active := 0 }] } },
        { description := "Fortify defenses and prepare for siege"
          outcome :=
            { description :=
                "We strengthen our defenses. The " ++ threat_name ++
                  " probe our perimeter but find no weakness."
              score_delta := 3
              state_changes :=
                [StateChange.AddThreat
                   { name := threat_name, severity := severity, rounds_active := 0 }] } },
        { description := "Attempt diplomatic resolution"
          outcome :=
            { description :=
                "Negotiations with the " ++ threat_name ++
                  " fail. They attack while our guard is down!"
              score_delta := -15
              state_changes :=
                [StateChange.AddThreat
                   { name := threat_name, severity := severity + 1, rounds_active := 0 }] } }] },
   rng3)

def generateResourceScarcity (galaxy : GalaxyState) (rng : RngState) :
    Event × RngState :=
  let (d1, rng1) := next_u32 rng
  let severity := d1 % 3 + 1
  let pcr : Option String × Relation × RngState :=
    if galaxy.known_species.isEmpty then
      (none, Relation.Unknown, rng1)
    else
      let (d2, rng2a) := next_u32 rng1
      let name :=
        (galaxy.known_species.getD (d2 % galaxy.known_species.length)
          { name := "", traits := [] }).name
      (some name, (mapGet galaxy.relations name).getD Relation.Unknown, rng2a)
  let partner_name := pcr.1
  let current_relation := pcr.2.1
  let rng2 := pcr.2.2
  let ts : Bool × RngState :=
    if partner_name.isSome && !(current_relation = Relation.Hostile) then
      let (d3, rng3a) := next_u32 rng2
      (!(d3 % 4 = 0), rng3a)
    else (false, rng2)
  let trade_success := ts.1
  let rng3 := ts.2
  let discovery := "Closed-Loop Recycling v" ++ toString severity
  let (d4, rng4) := next_u32 rng3
  ({ description :=
       "A critical shortage is developing in fuel and critical materials. Internal forecasts rate it severity " ++
         toString severity ++ "."
     relevant_expertise :=
       [("engineering", 0.4), ("strategy", 0.35), ("diplomacy", 0.25)]
     options :=
       [{ description := "Impose rationing and efficiency measures"
          outcome :=
            { description :=
                "Consumption drops and reserves stabilize. Nobody loves it, but it works."
              score_delta := 3
              state_changes := [] } },
        { description := "Seek emergency trade and resupply agreements"
          outcome :=
            match partner_name with
            | none =>
              { description :=
                  "We have no established contacts to trade with. The council must rely on internal measures."
                score_delta := -2
                state_changes := [] }
            | some species =>
              if trade_success then
                { description :=
                    "The " ++ species ++
                      " agree to a resupply deal. Relations improve and the crisis eases."
                  score_delta := 8
                  state_changes :=
                    [StateChange.SetRelation species (improve_relation current_relation)] }
              else
                { description :=
                    "Negotiations with the " ++ species ++
                      " stall. The shortage worsens and trust erodes."
                  score_delta := -6
                  state_changes :=
                    [StateChange.SetRelation species (degrade_relation current_relation)] } },
        { description :=
            "Attempt a rapid engineering breakthrough to replace the missing resources"
          outcome :=
            if d4 % 3 = 0 then
              { description :=
                  "A rushed but successful retrofit delivers " ++ discovery ++
                    ". The supply crunch is largely mitigated."
                score_delta := 12
                state_changes :=
                  [StateChange.AddDiscovery { name := discovery, category := "engineering" }] }
            else
              { description :=
                  "The retrofit program fails and causes cascading shortages. A long-term crisis is now active."
                score_delta := -10
                state_changes :=
                  [StateChange.AddThreat
                     { name := "Resource Shortfall", severity := severity, rounds_active := 0 }] } }] },
   rng4)

def generateArtifact (galaxy : GalaxyState) (rng : RngState) :
    Event × RngState :=
  let (d1, rng1) := next_u32 rng
  let sector_idx := d1 % max galaxy.explored_sectors.length 1
  let sector := ((galaxy.explored_sectors.get? sector_idx).map Sector.name).getD "Home Sector"
  let (d2, rng2) := next_u32 rng1
  let artifact_name := DISCOVERY_TYPES.getD (d2 % DISCOVERY_TYPES.length) ""
  let (d3, rng3) := next_u32 rng2
  ({ description :=
       "Survey teams in " ++ sector ++
         " have discovered what appears to be an ancient " ++ artifact_name ++
         ". Initial scans suggest it may still be functional."
     relevant_expertise :=
       [("archaeology", 0.4), ("science", 0.3), ("engineering", 0.3)]
     options :=
       [{ description := "Attempt to activate the artifact immediately"
          outcome :=
            if d3 % 4 = 0 then
              { description :=
                  "The " ++ artifact_name ++
                    " activates but overloads, causing damage before failing."
                score_delta := -10
                state_changes := [] }
            else
              { description :=
                  "The " ++ artifact_name ++
                    " activates successfully! Its knowledge is integrated into our systems."
                score_delta := 18
                state_changes :=
                  [StateChange.AddDiscovery { name := artifact_name, category := "artifact" }] } },
        { description := "Carefully study it before attempting activation"
          outcome :=
            { description :=
                "Careful analysis reveals the " ++ artifact_name ++ "\x27s secrets safely."
              score_delta := 10
              state_changes :=
                [StateChange.AddDiscovery { name := artifact_name, category := "artifact" }] } },
        { description := "Secure the site for later investigation"
          outcome :=
            { description :=
                "The artifact is secured. We\x27ll return to it when resources allow."
              score_delta := 2
              state_changes := [] } }] },
   rng3)

def generateDiplomaticRequest (galaxy : GalaxyState) (rng : RngState) :
    Event × RngState :=
  let (d1, rng1) := next_u32 rng
  let species_name :=
    (galaxy.known_species.getD (d1 % galaxy.known_species.length)
      { name := "", traits := [] }).name
  let current_relation := (mapGet galaxy.relations species_name).getD Relation.Unknown
  let generous_relation := greatly_improve_relation current_relation
  let negotiate_relation := improve_relation current_relation
  let decline_relation := degrade_relation current_relation
  ({ description :=
       "The " ++ species_name ++
         " have sent an envoy requesting a formal diplomatic summit. They wish to discuss trade agreements and cultural exchange. Current relations are " ++
         relationDebug current_relation ++ "."
     relevant_expertise :=
       [("diplomacy", 0.5), ("culture", 0.3), ("strategy", 0.2)]
     options :=
       [{ description := "Accept generously — offer trade and cultural exchange"
          outcome :=
            { description :=
                "The " ++ species_name ++
                  " are delighted by our generosity. Relations improve significantly!"
              score_delta := 12
              state_changes :=
                [StateChange.SetRelation species_name generous_relation] } },
        { description := "Negotiate cautiously — seek mutual benefit"
          outcome :=
            { description :=
                "Careful negotiations with the " ++ species_name ++
                  " yield a modest agreement."
              score_delta := 5
              state_changes :=
                [StateChange.SetRelation species_name negotiate_relation] } },
        { description := "Decline the summit — we have other priorities"
          outcome :=
            { description :=
                "The " ++ species_name ++ " are offended by our refusal. Relations deteriorate."
              score_delta := -2
              state_changes :=
                [StateChange.SetRelation species_name decline_relation] } }] },
   rng1)

def generateCulturalExchange (galaxy : GalaxyState) (rng : RngState) :
    Event × RngState :=
  let candidates :=
    galaxy.known_species.filter (fun s =>
      !(((mapGet galaxy.relations s.name).getD Relation.Unknown) = Relation.Hostile))
  let (d1, rng1) := next_u32 rng
  let chosen :=
    if candidates.isEmpty then
      galaxy.known_species.getD (d1 % galaxy.known_species.length)
        { name := "", traits := [] }
    else
      candidates.getD (d1 % candidates.length) { name := "", traits := [] }
  let species_name := chosen.name
  let current_relation := (mapGet galaxy.relations species_name).getD Relation.Unknown
  let full_exchange := improve_relation current_relation
  let limited_exchange := current_relation
  let decline_relation := degrade_relation current_relation
  let discovery := species_name ++ " Cultural Lexicon"
  let (d2, rng2) := next_u32 rng1
  let mishap := d2 % 6 = 0
  ({ description :=
       "The " ++ species_name ++
         " invite us to a structured cultural exchange: language mapping, art archives, and diplomatic protocol training. Current relations are " ++
         relationDebug current_relation ++ "."
     relevant_expertise :=
       [("culture", 0.4), ("diplomacy", 0.4), ("science", 0.2)]
     options :=
       [{ description := "Commit fully — exchange scholars and share archives"
          outcome :=
            if mishap then
              { description :=
                  "A translation mishap causes offense during the exchange. Relations cool despite useful insights."
                score_delta := 2
                state_changes :=
                  [StateChange.AddDiscovery { name := discovery, category := "culture" },
                   StateChange.SetRelation species_name (degrade_relation full_exchange)] }
            else
              { description :=
                  "The exchange succeeds. We compile the " ++ discovery ++
                    " and relations improve."
                score_delta := 10
                state_changes :=
                  [StateChange.AddDiscovery { name := discovery, category := "culture" },
                   StateChange.SetRelation species_name full_exchange] } },
        { description := "Accept cautiously — run a limited exchange"
          outcome :=
            { description :=
                "A small exchange program runs smoothly. Incremental trust is built."
              score_delta := 5
              state_changes :=
                [StateChange.SetRelation species_name limited_exchange] } },
        { description := "Decline — focus on strategic priorities"
          outcome :=
            { description :=
                "We politely decline. The relationship suffers from the missed opportunity."
              score_delta := -1
              state_changes :=
                [StateChange.SetRelation species_name decline_relation] } }] },
   rng2)

def generateTechBreakthrough (_galaxy : GalaxyState) (rng : RngState) :
    Event × RngState :=
  let (d1, rng1) := next_u32 rng
  let discovery_name := RESEARCH_DISCOVERIES.getD (d1 % RESEARCH_DISCOVERIES.length) ""
  ({ description :=
       "Our scientists report that recent discoveries have opened a path to a major breakthrough: " ++
         discovery_name ++ ". Significant resources would be required to pursue it."
     relevant_expertise :=
       [("science", 0.5), ("engineering", 0.3), ("exploration", 0.2)]
     options :=
       [{ description := "Full investment — redirect all research capacity"
          outcome :=
            { description :=
                "Massive investment pays off! " ++ discovery_name ++
                  " is achieved, revolutionizing our capabilities."
              score_delta := 18
              state_changes :=
                [StateChange.AddDiscovery { name := discovery_name, category := "research" }] } },
        { description := "Methodical research — steady progress over time"
          outcome :=
            { description :=
                "Patient research yields results. " ++ discovery_name ++
                  " is added to our knowledge base."
              score_delta := 8
              state_changes :=
                [StateChange.AddDiscovery { name := discovery_name, category := "research" }] } },
        { description := "Archive the findings for later"
          outcome :=
            { description :=
                "The research notes are filed away. Perhaps we\x27ll revisit them."
              score_delta := 2
              state_changes := [] } }] },
   rng1)

/-- `EventTemplate::generate`, dispatched over the catalog. -/
def Template.generate : Template → GalaxyState → RngState → Event × RngState
  | Template.UnknownSignal => generateUnknownSignal
  | Template.Derelict => generateDerelict
  | Template.Anomaly => generateAnomaly
  | Template.FirstContact => generateFirstContact
  | Template.ThreatEmergence => generateThreatEmergence
  | Template.ResourceScarcity => generateResourceScarcity
  | Template.Artifact => generateArtifact
  | Template.DiplomaticRequest => generateDiplomaticRequest
  | Template.CulturalExchange => generateCulturalExchange
  | Template.TechBreakthrough => generateTechBreakthrough

/-- `default_templates`: the ten built-in templates, in catalog order. -/
def default_templates : List Template :=
  [Template.UnknownSignal, Template.Derelict, Template.Anomaly,
   Template.FirstContact, Template.ThreatEmergence, Template.ResourceScarcity,
   Template.Artifact, Template.DiplomaticRequest, Template.CulturalExchange,
   Template.TechBreakthrough]

/-- The fixed fallback event returned when no template is applicable. -/
def fallbackEvent : Event :=
  { description := "A quiet period in the cosmos. The council convenes for routine matters."
    relevant_expertise := []
    options :=
      [{ description := "Continue as normal"
         outcome :=
           { description := "Business as usual."
             score_delta := 1
             state_changes := [] } }] }

/-- The selection loop of `generate_event`: subtract each applicable
template's weight from the roll, selecting the first with `roll < weight`. -/
def selectWalk : List Template → Nat → Option Template
  | [], _ => none
  | t :: ts, roll => if roll < t.weight then some t else selectWalk ts (roll - t.weight)

/-- `generate_event`: filter to applicable templates, fallback if none,
otherwise weighted random choice followed by the chosen template's
`generate` (the trailing `applicable[0]` branch of the source is the
walk's `none` case). -/
def generate_event (templates : List Template) (galaxy : GalaxyState)
    (rng : RngState) : Event × RngState :=
  let applicable := templates.filter (fun t => t.is_applicable galaxy)
  match applicable with
  | [] => (fallbackEvent, rng)
  | a :: rest =>
    let total_weight := ((a :: rest).map Template.weight).sum
    let (d, rng1) := next_u32 rng
    let roll := d % total_weight
    match selectWalk (a :: rest) roll with
    | some t => t.generate galaxy rng1
    | none => a.generate galaxy rng1

/-! ## Specification-side formulations used by the theorems -/

/-- First-match proficiency lookup, as the spec words it
("proficiency looked up by exact tag match"). -/
def lookupProficiency (competencies : List (String × ℚ)) (tag : String) : ℚ :=
  ((competencies.find? (fun be => be.1 = tag)).map Prod.snd).getD 0

/-- The spec's formulation of the vote weight: `BASE_WEIGHT` plus the sum,
over entries of the event's relevant-competency list whose tag also appears
in the agent's competency list, of `event_weight * proficiency`. -/
def weightBySpec (competencies : List (String × ℚ)) (event : Event) : ℚ :=
  BASE_WEIGHT +
    ((event.relevant_expertise.filter
        (fun te => competencies.any (fun be => be.1 = te.1))).map
      (fun te => te.2 * lookupProficiency competencies te.1)).sum

theorem filterMap_bonus_eq (expertise rel : List (String × ℚ)) :
    (rel.filterMap (fun te =>
        (expertise.find? (fun be => be.1 = te.1)).map (fun be => te.2 * be.2))).sum =
      ((rel.filter (fun te => expertise.any (fun be => be.1 = te.1))).map
        (fun te => te.2 * lookupProficiency expertise te.1)).sum := by
  induction rel with
  | nil => rfl
  | cons te rest ih =>
    rw [List.filterMap_cons, List.filter_cons]
    rcases hfind : expertise.find? (fun be => be.1 = te.1) with _ | be
    · have hany : (expertise.any (fun be => be.1 = te.1)) = false := by
        rw [List.any_eq_false]
        intro x hx
        simpa using List.find?_eq_none.mp hfind x hx
      simp [hfind, hany, ih]
    · have hp := List.find?_some hfind
      have hmem := List.mem_of_find?_eq_some hfind
      have hany : (expertise.any (fun be => be.1 = te.1)) = true := by
        rw [List.any_eq_true]
        exact ⟨be, hmem, hp⟩
      have hlook : lookupProficiency expertise te.1 = be.2 := by
        simp [lookupProficiency, hfind]
      simp [hfind, hany, ih, hlook]

/-- C2: `calculate_vote_weight` equals `BASE_WEIGHT` plus the sum, over
entries of the event's relevant-competency list whose tag also appears in the
agent's competency list, of `event_weight * proficiency` with the proficiency
looked up by exact (first) tag match; with no overlapping tags the result is
exactly `BASE_WEIGHT`, and `BASE_WEIGHT` is the positive constant `0.1`.
(The embedded computation is a pure function, so it has no side effects.) -/
theorem calculate_vote_weight_spec (expertise : List (String × ℚ)) (event : Event) :
    calculate_vote_weight expertise event = weightBySpec expertise event ∧
    ((∀ te ∈ event.relevant_expertise, ∀ be ∈ expertise, be.1 ≠ te.1) →
      calculate_vote_weight expertise event = BASE_WEIGHT) ∧
    BASE_WEIGHT = 1 / 10 ∧ 0 < BASE_WEIGHT := by
  refine ⟨?_, ?_, by norm_num [BASE_WEIGHT], by norm_num [BASE_WEIGHT]⟩
  · unfold calculate_vote_weight weightBySpec
    rw [filterMap_bonus_eq]
  · intro hnone
    unfold calculate_vote_weight
    have : (event.relevant_expertise.filterMap (fun te =>
        (expertise.find? (fun be => be.1 = te.1)).map (fun be => te.2 * be.2))) = [] := by
      rw [List.filterMap_eq_nil_iff]
      intro te hte
      have : expertise.find? (fun be => be.1 = te.1) = none := by
        rw [List.find?_eq_none]
        intro be hbe
        simpa using hnone te hte be hbe
      rw [this]
      rfl
    rw [this]
    simp

/-- Witness for C2 at the spec's own examples: an agent with no overlapping
tags gets exactly `BASE_WEIGHT`, and `("diplomacy", 0.8)` against relevant
competency `("diplomacy", 0.5)` gets `BASE_WEIGHT + 0.4`. -/
theorem calculate_vote_weight_spec_witness :
    calculate_vote_weight [("engineering", (0.9 : ℚ))]
        { description := "Test", relevant_expertise := [("diplomacy", 0.5)],
          options := [] } = BASE_WEIGHT ∧
    calculate_vote_weight [("diplomacy", (0.8 : ℚ))]
        { description := "Test", relevant_expertise := [("diplomacy", 0.5)],
          options := [] } = BASE_WEIGHT + 0.4 := by
  constructor
  · exact (calculate_vote_weight_spec [("engineering", (0.9 : ℚ))]
      { description := "Test", relevant_expertise := [("diplomacy", 0.5)],
        options := [] }).2.1 (by decide)
  · simp [calculate_vote_weight, BASE_WEIGHT]
    norm_num

/-- C7: the relation step functions are total (they are functions on the
whole `Relation` scale by construction) and saturate at the ends:
`step_up(Hostile) = Wary`, `step_up(Allied) = Allied`,
`step_down(Hostile) = Hostile`, `step_down(Unknown) = Hostile`,
`step_down(Wary) = Hostile`, and greatly-improve is two consecutive
step-ups, so `greatly_improve(Hostile) = Neutral`. -/
theorem relation_steps_spec :
    improve_relation Relation.Hostile = Relation.Wary ∧
    improve_relation Relation.Allied = Relation.Allied ∧
    degrade_relation Relation.Hostile = Relation.Hostile ∧
    degrade_relation Relation.Unknown = Relation.Hostile ∧
    degrade_relation Relation.Wary = Relation.Hostile ∧
    (∀ r : Relation,
      greatly_improve_relation r = improve_relation (improve_relation r)) ∧
    greatly_improve_relation Relation.Hostile = Relation.Neutral :=
  ⟨rfl, rfl, rfl, rfl, rfl, fun _ => rfl, rfl⟩

theorem process_threats_loop (ts : List Threat) :
    ∀ acc : List Threat × Int,
      ts.foldl (fun acc t =>
          (acc.1 ++ [{ t with rounds_active := t.rounds_active + 1 }],
           acc.2 - (t.severity * 3 : Int))) acc =
        (acc.1 ++ ts.map (fun t => { t with rounds_active := t.rounds_active + 1 }),
         acc.2 - (ts.map (fun t => (t.severity * 3 : Int))).sum) := by
  induction ts with
  | nil => intro acc; simp
  | cons t rest ih =>
    intro acc
    rw [List.foldl_cons, ih]
    simp [sub_sub]

/-- C6: `process_threats` increments `rounds_active` by exactly 1 on every
active threat, returns minus the sum of `severity * 3` over all active
threats (a single threat of severity 2 yields exactly `-6`), removes no
threat, and leaves the threat list's length, names and severities
unchanged. -/
theorem process_threats_spec (g : GalaxyState) :
    (process_threats g).2 = -((g.threats.map (fun t => (t.severity * 3 : Int))).sum) ∧
    (process_threats g).1.threats =
      g.threats.map (fun t => { t with rounds_active := t.rounds_active + 1 }) ∧
    (process_threats g).1.threats.length = g.threats.length ∧
    (process_threats g).1.threats.map Threat.name = g.threats.map Threat.name ∧
    (process_threats g).1.threats.map Threat.severity = g.threats.map Threat.severity ∧
    (process_threats
        { GalaxyState.new with
          threats := [{ name := "Space Pirates", severity := 2, rounds_active := 0 }] }).2
      = -6 := by
  have h := process_threats_loop g.threats ([], 0)
  refine ⟨?_, ?_, ?_, ?_, ?_, by decide⟩
  · show (g.threats.foldl _ ([], 0)).2 = _
    rw [h]
    simp
  · show (g.threats.foldl _ ([], 0)).1 = _
    rw [h]
    simp
  · show (g.threats.foldl _ ([], 0)).1.length = _
    rw [h]
    simp
  · show (g.threats.foldl _ ([], 0)).1.map Threat.name = _
    rw [h]
    simp
  · show (g.threats.foldl _ ([], 0)).1.map Threat.severity = _
    rw [h]
    simp

/-! ## Threat-severity invariant (C5) -/

/-- A state change is a well-formed add-threat: the threat it introduces has
positive severity (every other change is unconstrained). -/
def addThreatPositive : StateChange → Prop
  | StateChange.AddThreat t => 0 < t.severity
  | _ => True

theorem setFirstThreatSeverity_spec (name : String) (delta : Int) :
    ∀ ts : List Threat,
      (ts.find? (fun t => t.name = name) = none →
        setFirstThreatSeverity name delta ts = ts) ∧
      (∀ t0, ts.find? (fun t => t.name = name) = some t0 →
        ∀ t ∈ setFirstThreatSeverity name delta ts,
          t ∈ ts ∨ t = { t0 with severity := ((t0.severity : Int) + delta).toNat }) := by
  intro ts
  induction ts with
  | nil => exact ⟨fun _ => rfl, fun t0 h => by simp at h⟩
  | cons a rest ih =>
    by_cases hname : a.name = name
    · constructor
      · intro hnone
        rw [List.find?_cons_of_pos _ (by simpa using hname)] at hnone
        exact absurd hnone (by simp)
      · intro t0 hsome t ht
        rw [List.find?_cons_of_pos _ (by simpa using hname)] at hsome
        have ht0 : t0 = a := by injection hsome with h; exact h.symm
        rw [setFirstThreatSeverity, if_pos hname] at ht
        rcases List.mem_cons.mp ht with h | h
        · exact Or.inr (by rw [h, ht0])
        · exact Or.inl (List.mem_cons_of_mem _ h)
    · constructor
      · intro hnone
        rw [List.find?_cons_of_neg _ (by simpa using hname)] at hnone
        rw [setFirstThreatSeverity, if_neg hname, ih.1 hnone]
      · intro t0 hsome t ht
        rw [List.find?_cons_of_neg _ (by simpa using hname)] at hsome
        rw [setFirstThreatSeverity, if_neg hname] at ht
        rcases List.mem_cons.mp ht with h | h
        · exact Or.inl (h ▸ List.mem_cons_self _ _)
        · rcases ih.2 t0 hsome t h with h | h
          · exact Or.inl (List.mem_cons_of_mem _ h)
          · exact Or.inr h

theorem applyChange_threat_pos (g : GalaxyState) (c : StateChange)
    (hg : ∀ t ∈ g.threats, 0 < t.severity) (hc : addThreatPositive c) :
    ∀ t ∈ (applyChange g c).threats, 0 < t.severity := by
  intro t ht
  cases c with
  | AddSector sector =>
    rw [applyChange] at ht
    split at ht <;> exact hg t ht
  | AddSpecies species =>
    rw [applyChange] at ht
    split at ht <;> exact hg t ht
  | SetRelation species relation => exact hg t ht
  | AddDiscovery discovery => exact hg t ht
  | AddThreat threat =>
    rw [applyChange] at ht
    split at ht
    · exact hg t ht
    · rcases List.mem_append.mp ht with h | h
      · exact hg t h
      · rw [List.mem_singleton.mp h]
        exact hc
  | RemoveThreat name =>
    rw [applyChange] at ht
    exact hg t (List.mem_of_mem_filter ht)
  | ModifyThreatSeverity name delta =>
    rw [applyChange] at ht
    rcases hfind : g.threats.find? (fun t => t.name = name) with _ | t0
    · rw [hfind] at ht
      exact hg t ht
    · rw [hfind] at ht
      dsimp only at ht
      by_cases hzero : ((t0.severity : Int) + delta).toNat = 0
      · rw [if_pos hzero] at ht
        have hmem := List.mem_of_mem_filter ht
        have hne : ¬ t.name = name := by simpa using List.of_mem_filter ht
        rcases (setFirstThreatSeverity_spec name delta g.threats).2 t0 hfind t hmem with h | h
        · exact hg t h
        · have hn0 : t0.name = name := by simpa using List.find?_some hfind
          exact absurd (by rw [h]; exact hn0) hne
      · rw [if_neg hzero] at ht
        rcases (setFirstThreatSeverity_spec name delta g.threats).2 t0 hfind t ht with h | h
        · exact hg t h
        · rw [h]
          exact Nat.pos_of_ne_zero hzero

theorem apply_changes_threat_pos (changes : List StateChange) :
    ∀ g : GalaxyState, (∀ t ∈ g.threats, 0 < t.severity) →
      (∀ c ∈ changes, addThreatPositive c) →
      ∀ t ∈ (apply_changes g changes).threats, 0 < t.severity := by
  induction changes with
  | nil =>
    intro g hg _
    simpa [apply_changes] using hg
  | cons c rest ih =>
    intro g hg hc
    have h1 := applyChange_threat_pos g c hg (hc c (List.mem_cons_self _ _))
    have h2 := ih (applyChange g c) h1 (fun c2 h => hc c2 (List.mem_cons_of_mem _ h))
    simpa [apply_changes] using h2

/-- C5 counterexample: the claim quantifies over every sequence of state
changes, but `apply_changes` does not guard the severity of an added threat:
adding a threat of severity 0 to the fresh state (whose threats all trivially
have positive severity) leaves a threat of severity 0 in the active list. -/
theorem threat_severity_counterexample :
    (∀ t ∈ GalaxyState.new.threats, 0 < t.severity) ∧
    ¬ (∀ t ∈ (apply_changes GalaxyState.new
          [StateChange.AddThreat
            { name := "Void Swarm", severity := 0, rounds_active := 0 }]).threats,
        0 < t.severity) := by
  constructor
  · intro t ht
    simp [GalaxyState.new] at ht
  · intro h
    have hmem : ({ name := "Void Swarm", severity := 0, rounds_active := 0 } : Threat) ∈
        (apply_changes GalaxyState.new
          [StateChange.AddThreat
            { name := "Void Swarm", severity := 0, rounds_active := 0 }]).threats := by
      simp [apply_changes, applyChange, GalaxyState.new]
    simpa using h _ hmem

/-- C5 (amended): for every world state in which all threats have severity
`> 0` and every sequence of state changes whose add-threat changes all carry
severity `> 0`, every threat remaining after `apply_changes` still has
severity `> 0`; and a modify-threat-severity change whose delta drives the
(first) matching threat's severity to 0 or below removes every threat of
that name in the same apply call. -/
theorem threat_severity_invariant (g : GalaxyState) (changes : List StateChange)
    (hg : ∀ t ∈ g.threats, 0 < t.severity)
    (hc : ∀ c ∈ changes, addThreatPositive c) :
    (∀ t ∈ (apply_changes g changes).threats, 0 < t.severity) ∧
    (∀ (name : String) (delta : Int) (t0 : Threat),
      g.threats.find? (fun t => t.name = name) = some t0 →
      (t0.severity : Int) + delta ≤ 0 →
      ∀ t ∈ (apply_changes g
          [StateChange.ModifyThreatSeverity name delta]).threats,
        ¬ t.name = name) := by
  constructor
  · exact apply_changes_threat_pos changes g hg hc
  · intro name delta t0 hfind hle t ht
    have hzero : ((t0.severity : Int) + delta).toNat = 0 := Int.toNat_eq_zero.mpr hle
    rw [apply_changes, List.foldl_cons, List.foldl_nil, applyChange, hfind] at ht
    dsimp only at ht
    rw [if_pos hzero] at ht
    simpa using List.of_mem_filter ht

/-- Witness for C5 at the repository's own test scenario: a threat of
severity 1 hit by delta `-1` is removed within the same apply call, and the
severity invariant holds on the result. -/
theorem threat_severity_invariant_witness :
    (∀ t ∈ (apply_changes
        { GalaxyState.new with
          threats := [{ name := "Minor Issue", severity := 1, rounds_active := 0 }] }
        [StateChange.ModifyThreatSeverity "Minor Issue" (-1)]).threats,
      0 < t.severity) ∧
    (∀ t ∈ (apply_changes
        { GalaxyState.new with
          threats := [{ name := "Minor Issue", severity := 1, rounds_active := 0 }] }
        [StateChange.ModifyThreatSeverity "Minor Issue" (-1)]).threats,
      ¬ t.name = "Minor Issue") := by
  have h := threat_severity_invariant
    { GalaxyState.new with
      threats := [{ name := "Minor Issue", severity := 1, rounds_active := 0 }] }
    [StateChange.ModifyThreatSeverity "Minor Issue" (-1)]
    (by intro t ht; simp [GalaxyState.new] at ht; simp [ht])
    (by
      intro c hcmem
      rcases List.mem_singleton.mp hcmem with rfl
      trivial)
  exact ⟨h.1, h.2 "Minor Issue" (-1)
    { name := "Minor Issue", severity := 1, rounds_active := 0 } (by simp) (by decide)⟩

/-! ## Duplicate-add idempotence (C8) -/

/-- Number of explored sectors carrying a given name. -/
def sectorNameCount (g : GalaxyState) (name : String) : Nat :=
  (g.explored_sectors.filter (fun s => s.name = name)).length

/-- C8: a second add-sector with the same name is silently skipped; starting
from a state satisfying the region-name-uniqueness invariant the result holds
exactly one region of that name; and add-species for an already-known species
name changes nothing (in particular the existing relation entry is kept). -/
theorem duplicate_add_idempotent (g : GalaxyState) (sector : Sector) (species : Species)
    (huniq : sectorNameCount g sector.name ≤ 1)
    (hknown : g.known_species.any (fun s => s.name = species.name) = true) :
    apply_changes g [StateChange.AddSector sector, StateChange.AddSector sector] =
      apply_changes g [StateChange.AddSector sector] ∧
    sectorNameCount
        (apply_changes g [StateChange.AddSector sector, StateChange.AddSector sector])
        sector.name = 1 ∧
    apply_changes g [StateChange.AddSpecies species] = g := by
  have hsecond : ∀ g1 : GalaxyState,
      g1.explored_sectors.any (fun s => s.name = sector.name) = true →
      applyChange g1 (StateChange.AddSector sector) = g1 := by
    intro g1 h1
    rw [applyChange, if_pos h1]
  by_cases hany : g.explored_sectors.any (fun s => s.name = sector.name) = true
  · have hfirst : applyChange g (StateChange.AddSector sector) = g := hsecond g hany
    have hcount : 1 ≤ sectorNameCount g sector.name := by
      rcases List.any_eq_true.mp hany with ⟨s, hmem, hname⟩
      have : s ∈ g.explored_sectors.filter (fun s => s.name = sector.name) :=
        List.mem_filter.mpr ⟨hmem, hname⟩
      have := List.length_pos.mpr (List.ne_nil_of_mem this)
      exact this
    refine ⟨?_, ?_, ?_⟩
    · simp [apply_changes, hfirst]
    · simp [apply_changes, hfirst]
      exact Nat.le_antisymm huniq hcount
    · simp [apply_changes, applyChange, hknown]
  · have hanyf : g.explored_sectors.any (fun s => s.name = sector.name) = false :=
      Bool.eq_false_iff.mpr hany
    have hfirst : applyChange g (StateChange.AddSector sector) =
        { g with explored_sectors := g.explored_sectors ++ [sector] } := by
      rw [applyChange, if_neg (by simp [hanyf])]
    have hsec2 : ({ g with explored_sectors := g.explored_sectors ++ [sector] } :
        GalaxyState).explored_sectors.any (fun s => s.name = sector.name) = true := by
      simp
    have hnone : g.explored_sectors.filter (fun s => s.name = sector.name) = [] := by
      rw [List.filter_eq_nil_iff]
      intro s hmem
      have := List.any_eq_false.mp hanyf s hmem
      simpa using this
    refine ⟨?_, ?_, ?_⟩
    · simp [apply_changes, hfirst, hsecond _ hsec2]
    · simp [apply_changes, hfirst, hsecond _ hsec2, sectorNameCount, List.filter_append, hnone]
    · simp [apply_changes, applyChange, hknown]

/-- Witness for C8 at the repository's own test inputs. -/
theorem duplicate_add_idempotent_witness :
    sectorNameCount
        (apply_changes
          { GalaxyState.new with
            known_species := [{ name := "Zorblax", traits := ["curious"] }],
            relations := [("Zorblax", Relation.Friendly)] }
          [StateChange.AddSector { name := "Alpha Quadrant", sector_type := SectorType.Nebula },
           StateChange.AddSector { name := "Alpha Quadrant", sector_type := SectorType.Nebula }])
        "Alpha Quadrant" = 1 ∧
    apply_changes
        { GalaxyState.new with
          known_species := [{ name := "Zorblax", traits := ["curious"] }],
          relations := [("Zorblax", Relation.Friendly)] }
        [StateChange.AddSpecies { name := "Zorblax", traits := [] }] =
      { GalaxyState.new with
        known_species := [{ name := "Zorblax", traits := ["curious"] }],
        relations := [("Zorblax", Relation.Friendly)] } := by
  have h := duplicate_add_idempotent
    { GalaxyState.new with
      known_species := [{ name := "Zorblax", traits := ["curious"] }],
      relations := [("Zorblax", Relation.Friendly)] }
    { name := "Alpha Quadrant", sector_type := SectorType.Nebula }
    { name := "Zorblax", traits := [] }
    (by decide) (by decide)
  exact ⟨h.2.1, h.2.2⟩

/-! ## Vote-resolution characterization (C1, C10) -/

/-- The accumulated weight of one option: the sum of the weights of all
votes choosing that index. -/
def optionWeight (votes : List Vote) (j : Nat) : ℚ :=
  ((votes.filter (fun v => v.chosen_option = j)).map Vote.weight).sum

theorem getD_set_self (l : List ℚ) (i : Nat) (x : ℚ) (h : i < l.length) :
    (l.set i x).getD i 0 = x := by
  rw [List.getD_eq_getElem?_getD, List.getElem?_set_eq_of_lt x h]
  rfl

theorem getD_set_ne (l : List ℚ) (i j : Nat) (x : ℚ) (h : ¬ i = j) :
    (l.set i x).getD j 0 = l.getD j 0 := by
  rw [List.getD_eq_getElem?_getD, List.getD_eq_getElem?_getD, List.getElem?_set_ne h]

theorem tallyStep_length (n : Nat) (acc : List ℚ) (v : Vote) :
    (tallyStep n acc v).length = acc.length := by
  unfold tallyStep
  split <;> simp

theorem foldl_tallyStep_getD (n : Nat) (votes : List Vote) :
    ∀ acc : List ℚ, acc.length = n → ∀ j, j < n →
      (votes.foldl (tallyStep n) acc).getD j 0 = acc.getD j 0 + optionWeight votes j := by
  induction votes with
  | nil =>
    intro acc _ j _
    simp [optionWeight]
  | cons v rest ih =>
    intro acc hlen j hj
    rw [List.foldl_cons,
      ih (tallyStep n acc v) (by rw [tallyStep_length, hlen]) j hj]
    unfold tallyStep optionWeight
    by_cases hin : v.chosen_option < n
    · rw [if_pos hin]
      by_cases hjv : v.chosen_option = j
      · subst hjv
        rw [getD_set_self acc _ _ (hlen ▸ hin),
          List.filter_cons_of_pos (by simp)]
        show acc.getD v.chosen_option 0 + v.weight + _ = _
        rw [add_assoc]
        rfl
      · rw [getD_set_ne acc _ _ _ hjv, List.filter_cons_of_neg (by simpa using hjv)]
    · rw [if_neg hin]
      have hne : ¬ v.chosen_option = j := by omega
      rw [List.filter_cons_of_neg (by simpa using hne)]

theorem tallies_length (votes : List Vote) (n : Nat) :
    (tallies votes n).length = n := by
  unfold tallies
  have h : ∀ (vs : List Vote) (acc : List ℚ),
      (vs.foldl (tallyStep n) acc).length = acc.length := by
    intro vs
    induction vs with
    | nil => intro acc; rfl
    | cons v rest ih =>
      intro acc
      rw [List.foldl_cons, ih, tallyStep_length]
  rw [h]
  exact List.length_replicate n 0

theorem tallies_getD (votes : List Vote) (n j : Nat) (hj : j < n) :
    (tallies votes n).getD j 0 = optionWeight votes j := by
  unfold tallies
  rw [foldl_tallyStep_getD n votes (List.replicate n 0) (List.length_replicate n 0) j hj,
    List.getD_eq_getElem?_getD, List.getElem?_getD_replicate_default_eq, zero_add]

/-- Out-of-range votes contribute nothing: the tallying loop gives the same
totals once they are dropped. -/
theorem foldl_tallyStep_filter (n : Nat) (votes : List Vote) :
    ∀ acc : List ℚ,
      votes.foldl (tallyStep n) acc =
        (votes.filter (fun v => v.chosen_option < n)).foldl (tallyStep n) acc := by
  induction votes with
  | nil => intro _; rfl
  | cons v rest ih =>
    intro acc
    by_cases hin : v.chosen_option < n
    · rw [List.filter_cons_of_pos (by simpa using hin), List.foldl_cons,
        List.foldl_cons, ih]
    · rw [List.filter_cons_of_neg (by simpa using hin), List.foldl_cons]
      have hskip : tallyStep n acc v = acc := by
        unfold tallyStep
        rw [if_neg hin]
      rw [hskip, ih]

theorem tallies_drop_out_of_range (votes : List Vote) (n : Nat) :
    tallies votes n = tallies (votes.filter (fun v => v.chosen_option < n)) n := by
  unfold tallies
  exact foldl_tallyStep_filter n votes (List.replicate n 0)

theorem maxByResolve_cons (x : Nat × ℚ) (l : List (Nat × ℚ)) :
    maxByResolve (x :: l) = some (l.foldl resolvePick x) := by
  unfold maxByResolve
  rw [List.foldl_cons]
  induction l generalizing x with
  | nil => rfl
  | cons y rest ih => exact ih (resolvePick x y)

theorem resolvePick_eq (m : Nat × ℚ) (k : Nat) (v : ℚ) (h : m.1 < k) :
    resolvePick m (k, v) = if m.2 < v then (k, v) else m := by
  have hcmp : compare k m.1 = Ordering.gt := Nat.compare_eq_gt.mpr h
  rcases lt_trichotomy m.2 v with hlt | heq | hgt
  · simp [resolvePick, resolveCmp, cmpQ, hlt, Ordering.then]
  · simp [resolvePick, resolveCmp, cmpQ, heq, lt_irrefl, Ordering.then, hcmp]
  · simp [resolvePick, resolveCmp, cmpQ, not_lt.mpr (le_of_lt hgt),
      ne_of_gt hgt, Ordering.then]

theorem foldl_resolvePick_spec (l : List ℚ) :
    ∀ (k : Nat) (acc : Nat × ℚ), acc.1 < k →
      acc.2 ≤ ((List.enumFrom k l).foldl resolvePick acc).2 ∧
      (∀ j, j < l.length →
        l.getD j 0 ≤ ((List.enumFrom k l).foldl resolvePick acc).2) ∧
      ((List.enumFrom k l).foldl resolvePick acc = acc ∨
        ∃ j, j < l.length ∧
          ((List.enumFrom k l).foldl resolvePick acc).1 = k + j ∧
          ((List.enumFrom k l).foldl resolvePick acc).2 = l.getD j 0 ∧
          acc.2 < ((List.enumFrom k l).foldl resolvePick acc).2 ∧
          ∀ m, m < j → l.getD m 0 < ((List.enumFrom k l).foldl resolvePick acc).2) := by
  induction l with
  | nil =>
    intro k acc _
    exact ⟨le_refl _, by intro j hj; simp at hj, Or.inl rfl⟩
  | cons v rest ih =>
    intro k acc hk
    rw [List.enumFrom_cons, List.foldl_cons, resolvePick_eq acc k v hk]
    by_cases hv : acc.2 < v
    · rw [if_pos hv]
      rcases ih (k + 1) (k, v) (by omega) with ⟨ih1, ih2, ih3⟩
      refine ⟨le_trans (le_of_lt hv) ih1, ?_, ?_⟩
      · intro j hj
        match j with
        | 0 => exact ih1
        | j' + 1 => exact ih2 j' (by simpa using hj)
      · rcases ih3 with heq | ⟨j', hj', h1, h2, h3, h4⟩
        · refine Or.inr ⟨0, by simp, ?_, ?_, ?_, ?_⟩
          · rw [heq]
            simp
          · rw [heq]
            simp
          · rw [heq]
            exact hv
          · intro m hm
            exact absurd hm (Nat.not_lt_zero m)
        · refine Or.inr ⟨j' + 1, by simpa using hj', by omega, h2, lt_trans hv h3, ?_⟩
          intro m hm
          match m with
          | 0 => exact h3
          | m' + 1 => exact h4 m' (by omega)
    · rw [if_neg hv]
      rcases ih (k + 1) acc (by omega) with ⟨ih1, ih2, ih3⟩
      refine ⟨ih1, ?_, ?_⟩
      · intro j hj
        match j with
        | 0 => exact le_trans (not_lt.mp hv) ih1
        | j' + 1 => exact ih2 j' (by simpa using hj)
      · rcases ih3 with heq | ⟨j', hj', h1, h2, h3, h4⟩
        · exact Or.inl heq
        · refine Or.inr ⟨j' + 1, by simpa using hj', by omega, h2, h3, ?_⟩
          intro m hm
          match m with
          | 0 => exact lt_of_le_of_lt (not_lt.mp hv) h3
          | m' + 1 => exact h4 m' (by omega)

theorem resolve_votes_char (votes : List Vote) (n : Nat) (hn : 0 < n) :
    resolve_votes votes n < n ∧
    (∀ j, j < n → optionWeight votes j ≤ optionWeight votes (resolve_votes votes n)) ∧
    (∀ j, j < resolve_votes votes n →
      optionWeight votes j < optionWeight votes (resolve_votes votes n)) := by
  rcases ht : tallies votes n with _ | ⟨t0, rest⟩
  · have hL := tallies_length votes n
    rw [ht] at hL
    simp at hL
    omega
  · have hlen : rest.length + 1 = n := by
      have hL := tallies_length votes n
      rwa [ht, List.length_cons] at hL
    have henum : (tallies votes n).enum = (0, t0) :: rest.enumFrom 1 := by
      rw [ht]
      rfl
    have hres : resolve_votes votes n =
        ((List.enumFrom 1 rest).foldl resolvePick (0, t0)).1 := by
      unfold resolve_votes
      rw [if_neg (by omega), henum, maxByResolve_cons]
      rfl
    obtain ⟨h1, h2, h3⟩ := foldl_resolvePick_spec rest 1 (0, t0) (by omega)
    obtain ⟨r, hF⟩ : ∃ F, (List.enumFrom 1 rest).foldl resolvePick (0, t0) = F := ⟨_, rfl⟩
    rw [hF] at h1 h2 h3 hres
    have hgetD : ∀ j, j < n → (tallies votes n).getD j 0 = optionWeight votes j :=
      fun j hj => tallies_getD votes n j hj
    have hrval : (tallies votes n).getD r.1 0 = r.2 := by
      rcases h3 with heq | ⟨j', hj', hidx, hval, _, _⟩
      · rw [heq, ht]
        rfl
      · rw [hidx, ht]
        have h1j : 1 + j' = j' + 1 := by omega
        rw [h1j, List.getD_cons_succ, hval]
    have hrlt : r.1 < n := by
      rcases h3 with heq | ⟨j', hj', hidx, _, _, _⟩
      · rw [heq]
        exact hn
      · omega
    have hub : ∀ j, j < n → (tallies votes n).getD j 0 ≤ r.2 := by
      intro j hj
      match j with
      | 0 =>
        rw [ht, List.getD_cons_zero]
        rcases h3 with heq | ⟨_, _, _, _, hacc, _⟩
        · rw [heq]
        · exact le_of_lt hacc
      | j' + 1 =>
        rw [ht, List.getD_cons_succ]
        exact h2 j' (by omega)
    have hstrict : ∀ j, j < r.1 → (tallies votes n).getD j 0 < r.2 := by
      intro j hj
      rcases h3 with heq | ⟨j', hj', hidx, hval, hacc, hprev⟩
      · rw [heq] at hj
        simp at hj
      · match j with
        | 0 =>
          rw [ht, List.getD_cons_zero]
          exact hacc
        | m + 1 =>
          rw [ht, List.getD_cons_succ]
          exact hprev m (by omega)
    refine ⟨hres ▸ hrlt, ?_, ?_⟩
    · intro j hj
      rw [hres, ← hgetD j hj, ← hgetD r.1 hrlt, hrval]
      exact hub j hj
    · intro j hj
      rw [hres] at hj
      rw [hres, ← hgetD j (lt_trans hj hrlt), ← hgetD r.1 hrlt, hrval]
      exact hstrict j hj

/-- C1: `resolve_votes` returns 0 when `num_options = 0`; votes whose chosen
index is out of range contribute nothing to any tally (dropping them leaves
the tallies unchanged, and the embedding is total so no failure occurs); and
when `num_options > 0` the result is the index whose accumulated weight is
maximal, with ties broken by the lowest index (every index weighs at most
the winner, and every lower index weighs strictly less). -/
theorem resolve_votes_spec (votes : List Vote) (num_options : Nat) :
    resolve_votes votes 0 = 0 ∧
    tallies votes num_options =
      tallies (votes.filter (fun v => v.chosen_option < num_options)) num_options ∧
    (0 < num_options →
      resolve_votes votes num_options < num_options ∧
      (∀ j, j < num_options →
        optionWeight votes j ≤ optionWeight votes (resolve_votes votes num_options)) ∧
      (∀ j, j < resolve_votes votes num_options →
        optionWeight votes j < optionWeight votes (resolve_votes votes num_options))) :=
  ⟨rfl, tallies_drop_out_of_range votes num_options,
   fun hn => resolve_votes_char votes num_options hn⟩

/-- Witness for C1 on the spec's tie boundary: two equal-weight votes for
options 0 and 1 resolve to option 0 (derived from the tie-break
characterization). -/
theorem resolve_votes_spec_witness :
    resolve_votes
      [{ bot_name := "a", chosen_option := 0, weight := 0.5 },
       { bot_name := "b", chosen_option := 1, weight := 0.5 }] 2 = 0 := by
  have h := (resolve_votes_spec
    [{ bot_name := "a", chosen_option := 0, weight := 0.5 },
     { bot_name := "b", chosen_option := 1, weight := 0.5 }] 2).2.2 (by decide)
  have hW : optionWeight
      [{ bot_name := "a", chosen_option := 0, weight := 0.5 },
       { bot_name := "b", chosen_option := 1, weight := 0.5 }] 0 =
    optionWeight
      [{ bot_name := "a", chosen_option := 0, weight := 0.5 },
       { bot_name := "b", chosen_option := 1, weight := 0.5 }] 1 := by
    simp [optionWeight]
  have h01 : resolve_votes
      [{ bot_name := "a", chosen_option := 0, weight := 0.5 },
       { bot_name := "b", chosen_option := 1, weight := 0.5 }] 2 = 0 ∨
      resolve_votes
      [{ bot_name := "a", chosen_option := 0, weight := 0.5 },
       { bot_name := "b", chosen_option := 1, weight := 0.5 }] 2 = 1 := by
    omega
  rcases h01 with h0 | h1
  · exact h0
  · exfalso
    have hlt := h.2.2 0 (by omega)
    rw [h1] at hlt
    rw [hW] at hlt
    exact lt_irrefl _ hlt

/-- C10: whenever `num_options > 0`, `resolve_votes` returns an index
strictly less than `num_options`, for every list of votes, so the caller's
indexing of the event's option list with the winner cannot go out of
bounds. -/
theorem resolve_votes_in_range (votes : List Vote) (num_options : Nat)
    (h : 0 < num_options) : resolve_votes votes num_options < num_options :=
  (resolve_votes_char votes num_options h).1

/-- Witness for C10: a single out-of-range vote still yields an in-range
winner. -/
theorem resolve_votes_in_range_witness :
    (0 : Nat) < 2 ∧
    resolve_votes [{ bot_name := "a", chosen_option := 5, weight := 1 }] 2 < 2 :=
  ⟨by decide,
   resolve_votes_in_range [{ bot_name := "a", chosen_option := 5, weight := 1 }] 2
     (by decide)⟩

/-! ## Best/worst moment characterization (C9) -/

theorem foldl_opt_bestPick (l : List ScoreEvent) :
    ∀ m : ScoreEvent,
      l.foldl
        (fun acc e =>
          match acc with
          | none => some e
          | some m => some (bestPick m e)) (some m) =
      some (l.foldl bestPick m) := by
  induction l with
  | nil => intro m; rfl
  | cons y l ih => intro m; exact ih (bestPick m y)

theorem foldl_opt_worstPick (l : List ScoreEvent) :
    ∀ m : ScoreEvent,
      l.foldl
        (fun acc e =>
          match acc with
          | none => some e
          | some m => some (worstPick m e)) (some m) =
      some (l.foldl worstPick m) := by
  induction l with
  | nil => intro m; rfl
  | cons y l ih => intro m; exact ih (worstPick m y)

theorem foldl_bestPick_spec (l : List ScoreEvent) :
    ∀ m : ScoreEvent,
      m.delta ≤ (l.foldl bestPick m).delta ∧
      (∀ x ∈ l, x.delta ≤ (l.foldl bestPick m).delta) ∧
      ((l.foldl bestPick m = m ∧ ∀ x ∈ l, x.delta < m.delta) ∨
        ∃ l1 l2, l = l1 ++ (l.foldl bestPick m) :: l2 ∧
          ∀ x ∈ l2, x.delta < (l.foldl bestPick m).delta) := by
  induction l with
  | nil =>
    intro m
    exact ⟨le_refl _, by intro x hx; simp at hx,
      Or.inl ⟨rfl, by intro x hx; simp at hx⟩⟩
  | cons e l ih =>
    intro m
    rw [List.foldl_cons]
    rcases ih (bestPick m e) with ⟨ih1, ih2, ih3⟩
    have hme : m.delta ≤ (bestPick m e).delta := by
      unfold bestPick
      split <;> omega
    have hee : e.delta ≤ (bestPick m e).delta := by
      unfold bestPick
      split <;> omega
    refine ⟨le_trans hme ih1, ?_, ?_⟩
    · intro x hx
      rcases List.mem_cons.mp hx with rfl | hx
      · exact le_trans hee ih1
      · exact ih2 x hx
    · rcases ih3 with ⟨heq, hall⟩ | ⟨l1, l2, hsplit, hafter⟩
      · by_cases hgt : m.delta > e.delta
        · have hpick : bestPick m e = m := by unfold bestPick; rw [if_pos hgt]
          refine Or.inl ⟨by rw [heq, hpick], ?_⟩
          intro x hx
          rcases List.mem_cons.mp hx with rfl | hx
          · exact hgt
          · have := hall x hx
            rw [hpick] at this
            exact this
        · have hpick : bestPick m e = e := by unfold bestPick; rw [if_neg hgt]
          refine Or.inr ⟨[], l, ?_, ?_⟩
          · rw [heq, hpick]
            rfl
          · intro x hx
            rw [heq]
            exact hall x hx
      · exact Or.inr ⟨e :: l1, l2, by rw [List.cons_append, ← hsplit], hafter⟩

theorem foldl_worstPick_spec (l : List ScoreEvent) :
    ∀ m : ScoreEvent,
      (l.foldl worstPick m).delta ≤ m.delta ∧
      (∀ x ∈ l, (l.foldl worstPick m).delta ≤ x.delta) ∧
      (l.foldl worstPick m = m ∨
        ∃ l1 l2, l = l1 ++ (l.foldl worstPick m) :: l2 ∧
          (l.foldl worstPick m).delta < m.delta ∧
          ∀ x ∈ l1, (l.foldl worstPick m).delta < x.delta) := by
  induction l with
  | nil =>
    intro m
    exact ⟨le_refl _, by intro x hx; simp at hx, Or.inl rfl⟩
  | cons e l ih =>
    intro m
    rw [List.foldl_cons]
    rcases ih (worstPick m e) with ⟨ih1, ih2, ih3⟩
    have hme : (worstPick m e).delta ≤ m.delta := by
      unfold worstPick
      split <;> omega
    have hee : (worstPick m e).delta ≤ e.delta := by
      unfold worstPick
      split <;> omega
    refine ⟨le_trans ih1 hme, ?_, ?_⟩
    · intro x hx
      rcases List.mem_cons.mp hx with rfl | hx
      · exact le_trans ih1 hee
      · exact ih2 x hx
    · rcases ih3 with heq | ⟨l1, l2, hsplit, hdec, hbefore⟩
      · by_cases hgt : m.delta > e.delta
        · have hpick : worstPick m e = e := by unfold worstPick; rw [if_pos hgt]
          refine Or.inr ⟨[], l, ?_, ?_, ?_⟩
          · rw [heq, hpick]
            rfl
          · rw [heq, hpick]
            exact hgt
          · intro x hx
            simp at hx
        · have hpick : worstPick m e = m := by unfold worstPick; rw [if_neg hgt]
          exact Or.inl (by rw [heq, hpick])
      · refine Or.inr ⟨e :: l1, l2, by rw [List.cons_append, ← hsplit], lt_of_lt_of_le hdec hme, ?_⟩
        intro x hx
        rcases List.mem_cons.mp hx with rfl | hx
        · exact lt_of_lt_of_le hdec hee
        · exact hbefore x hx

/-- The claim's formulation of `best_moment` on ties: the FIRST entry in
ledger order attaining the maximum delta. -/
def firstMaxMoment (t : ScoreTracker) : Option ScoreEvent :=
  t.history.find? (fun e => t.history.all (fun x => x.delta ≤ e.delta))

/-- The two-entry tied ledger used to refute the claim's tie direction. -/
def tiedLedger : ScoreTracker :=
  { total := 10
    history := [{ round := 1, delta := 5, reason := "a" },
                { round := 2, delta := 5, reason := "b" }] }

/-- C9 counterexample: on a ledger with two entries sharing the maximum
delta, `best_moment` (Rust `max_by_key`, which keeps the LAST maximal
element) returns the second entry, not the first one the claim promises. -/
theorem best_moment_tie_counterexample :
    best_moment tiedLedger = some { round := 2, delta := 5, reason := "b" } ∧
    firstMaxMoment tiedLedger = some { round := 1, delta := 5, reason := "a" } ∧
    best_moment tiedLedger ≠ firstMaxMoment tiedLedger := by
  refine ⟨?_, ?_, ?_⟩ <;> decide

/-- C9 (amended): on a non-empty ledger `best_moment` returns an entry with
the maximum delta and, when several entries share that maximum, the LAST
such entry in ledger order (every later entry is strictly smaller);
`worst_moment` returns an entry with the minimum delta and, on ties, the
FIRST such entry (every earlier entry is strictly greater); both return
nothing on an empty ledger. -/
theorem best_worst_moment_spec (t : ScoreTracker) :
    (t.history = [] → best_moment t = none ∧ worst_moment t = none) ∧
    (t.history ≠ [] →
      (∃ b l1 l2, t.history = l1 ++ b :: l2 ∧ best_moment t = some b ∧
        (∀ x ∈ t.history, x.delta ≤ b.delta) ∧ ∀ x ∈ l2, x.delta < b.delta) ∧
      (∃ w l1 l2, t.history = l1 ++ w :: l2 ∧ worst_moment t = some w ∧
        (∀ x ∈ t.history, w.delta ≤ x.delta) ∧ ∀ x ∈ l1, w.delta < x.delta)) := by
  constructor
  · intro hnil
    unfold best_moment worst_moment
    rw [hnil]
    exact ⟨rfl, rfl⟩
  · intro hne
    rcases hh : t.history with _ | ⟨e, rest⟩
    · exact absurd hh hne
    · have hbm : best_moment t = some (rest.foldl bestPick e) := by
        unfold best_moment
        rw [hh, List.foldl_cons]
        exact foldl_opt_bestPick rest e
      have hwm : worst_moment t = some (rest.foldl worstPick e) := by
        unfold worst_moment
        rw [hh, List.foldl_cons]
        exact foldl_opt_worstPick rest e
      constructor
      · rcases foldl_bestPick_spec rest e with ⟨h1, h2, h3⟩
        rcases h3 with ⟨heq, hall⟩ | ⟨l1, l2, hsplit, hafter⟩
        · refine ⟨rest.foldl bestPick e, [], rest, ?_, hbm, ?_, ?_⟩
          · rw [heq]
            rfl
          · intro x hx
            rcases List.mem_cons.mp hx with rfl | hx
            · exact h1
            · exact h2 x hx
          · intro x hx
            rw [heq]
            exact hall x hx
        · refine ⟨rest.foldl bestPick e, e :: l1, l2, ?_, hbm, ?_, hafter⟩
          · rw [List.cons_append, ← hsplit]
          · intro x hx
            rcases List.mem_cons.mp hx with rfl | hx
            · exact h1
            · exact h2 x hx
      · rcases foldl_worstPick_spec rest e with ⟨h1, h2, h3⟩
        rcases h3 with heq | ⟨l1, l2, hsplit, hdec, hbefore⟩
        · refine ⟨rest.foldl worstPick e, [], rest, ?_, hwm, ?_, ?_⟩
          · rw [heq]
            rfl
          · intro x hx
            rcases List.mem_cons.mp hx with rfl | hx
            · exact h1
            · exact h2 x hx
          · intro x hx
            simp at hx
        · refine ⟨rest.foldl worstPick e, e :: l1, l2, ?_, hwm, ?_, ?_⟩
          · rw [List.cons_append, ← hsplit]
          · intro x hx
            rcases List.mem_cons.mp hx with rfl | hx
            · exact h1
            · exact h2 x hx
          · intro x hx
            rcases List.mem_cons.mp hx with rfl | hx
            · exact hdec
            · exact hbefore x hx

/-- Witness for C9 at concrete ledgers: the empty ledger yields no moments,
and on the tied ledger the characterization applies. -/
theorem best_worst_moment_spec_witness :
    (best_moment { total := 0, history := [] } = none ∧
     worst_moment { total := 0, history := [] } = none) ∧
    (∃ b l1 l2, tiedLedger.history = l1 ++ b :: l2 ∧
      best_moment tiedLedger = some b ∧
      (∀ x ∈ tiedLedger.history, x.delta ≤ b.delta) ∧
      ∀ x ∈ l2, x.delta < b.delta) := by
  constructor
  · exact (best_worst_moment_spec { total := 0, history := [] }).1 rfl
  · exact ((best_worst_moment_spec tiedLedger).2 (by decide)).1

/-! ## Event-selector properties (C3, C4) -/

theorem template_generate_options_length (t : Template) (g : GalaxyState)
    (rng : RngState) : (t.generate g rng).1.options.length = 3 := by
  cases t <;>
    simp [Template.generate, generateUnknownSignal, generateDerelict, generateAnomaly,
      generateFirstContact, generateThreatEmergence, generateResourceScarcity,
      generateArtifact, generateDiplomaticRequest, generateCulturalExchange,
      generateTechBreakthrough, random_sector_name, random_species_name, next_u32]

theorem template_weight_pos (t : Template) : 0 < t.weight := by
  cases t <;> decide

theorem selectWalk_isSome (l : List Template) :
    ∀ roll, roll < (l.map Template.weight).sum →
      ∃ t, selectWalk l roll = some t := by
  induction l with
  | nil =>
    intro roll h
    simp at h
  | cons a rest ih =>
    intro roll h
    rw [List.map_cons, List.sum_cons] at h
    by_cases hlt : roll < a.weight
    · exact ⟨a, by rw [selectWalk, if_pos hlt]⟩
    · obtain ⟨t, ht⟩ := ih (roll - a.weight) (by omega)
      exact ⟨t, by rw [selectWalk, if_neg hlt, ht]⟩

/-- The spec's cumulative formulation of the weighted choice, tracking the
cumulative weight of the templates walked so far: select the first template
whose cumulative weight strictly exceeds the draw. -/
def cumulativeChoiceAux (acc : Nat) : List Template → Nat → Option Template
  | [], _ => none
  | t :: ts, roll =>
    if roll < acc + t.weight then some t
    else cumulativeChoiceAux (acc + t.weight) ts roll

/-- The first template in the list whose cumulative weight strictly exceeds
the draw (the spec's description of the weighted random choice). -/
def cumulativeChoice (l : List Template) (roll : Nat) : Option Template :=
  cumulativeChoiceAux 0 l roll

theorem selectWalk_eq_cumulativeAux (l : List Template) :
    ∀ (roll acc : Nat), acc ≤ roll →
      selectWalk l (roll - acc) = cumulativeChoiceAux acc l roll := by
  induction l with
  | nil => intro roll acc _; rfl
  | cons t ts ih =>
    intro roll acc hacc
    rw [selectWalk, cumulativeChoiceAux]
    by_cases hlt : roll < acc + t.weight
    · rw [if_pos (by omega), if_pos hlt]
    · rw [if_neg (by omega), if_neg hlt,
        show roll - acc - t.weight = roll - (acc + t.weight) by omega]
      exact ih roll (acc + t.weight) (by omega)

theorem selectWalk_eq_cumulative (l : List Template) (roll : Nat) :
    selectWalk l roll = cumulativeChoice l roll := by
  have h := selectWalk_eq_cumulativeAux l roll 0 (Nat.zero_le roll)
  rwa [Nat.sub_zero] at h

theorem generate_event_cons (templates : List Template) (g : GalaxyState)
    (rng : RngState) (a : Template) (rest : List Template)
    (happ : templates.filter (fun t => t.is_applicable g) = a :: rest) :
    generate_event templates g rng =
      match selectWalk (a :: rest)
          ((next_u32 rng).1 % ((a :: rest).map Template.weight).sum) with
      | some t => t.generate g (next_u32 rng).2
      | none => a.generate g (next_u32 rng).2 := by
  unfold generate_event
  rw [happ]

theorem generate_event_options_pos (templates : List Template) (g : GalaxyState)
    (rng : RngState) : 1 ≤ (generate_event templates g rng).1.options.length := by
  rcases h : templates.filter (fun t => t.is_applicable g) with _ | ⟨a, rest⟩
  · unfold generate_event
    rw [h]
    simp [fallbackEvent]
  · rw [generate_event_cons templates g rng a rest h]
    rcases hw : selectWalk (a :: rest)
        ((next_u32 rng).1 % ((a :: rest).map Template.weight).sum) with _ | t
    · dsimp only
      rw [template_generate_options_length]
      omega
    · dsimp only
      rw [template_generate_options_length]
      omega

/-- C3: for every world state and random source, `generate_event` over the
default catalog is total and returns an event with at least one option; and
whenever no template is applicable (over any catalog), the result is exactly
the fixed fallback event, which has a single option whose outcome carries
score delta +1 and no state changes. -/
theorem generate_event_never_stalls :
    (∀ (g : GalaxyState) (rng : RngState),
      1 ≤ (generate_event default_templates g rng).1.options.length) ∧
    (∀ (templates : List Template) (g : GalaxyState) (rng : RngState),
      templates.filter (fun t => t.is_applicable g) = [] →
      generate_event templates g rng = (fallbackEvent, rng)) ∧
    fallbackEvent.options.length = 1 ∧
    (∀ opt ∈ fallbackEvent.options,
      opt.outcome.score_delta = 1 ∧ opt.outcome.state_changes = []) := by
  refine ⟨fun g rng => generate_event_options_pos default_templates g rng, ?_, rfl, ?_⟩
  · intro templates g rng hfil
    unfold generate_event
    rw [hfil]
  · intro opt hopt
    rcases List.mem_singleton.mp hopt with rfl
    exact ⟨rfl, rfl⟩

/-- Witness for C3: the fresh world state with a constant-zero random
source, and the empty catalog for the fallback case. -/
theorem generate_event_never_stalls_witness :
    1 ≤ (generate_event default_templates GalaxyState.new
        { seq := fun _ => 0, pos := 0 }).1.options.length ∧
    generate_event [] GalaxyState.new { seq := fun _ => 0, pos := 0 } =
      (fallbackEvent, { seq := fun _ => 0, pos := 0 }) :=
  ⟨generate_event_never_stalls.1 GalaxyState.new { seq := fun _ => 0, pos := 0 },
   generate_event_never_stalls.2.1 [] GalaxyState.new
     { seq := fun _ => 0, pos := 0 } rfl⟩

/-- C4: with at least one applicable template, `generate_event` draws one
`u32`, reduces it modulo the (positive) total weight of the applicable
templates, walks them in catalog order and invokes the `generate` of the
first template whose cumulative weight strictly exceeds the draw; the
selected template is a function of the catalog order and the draw alone
(the cumulative-choice characterization mentions nothing else), so equal
order and equal draw select the same template. -/
theorem generate_event_weighted_choice (templates : List Template)
    (g : GalaxyState) (rng : RngState) (a : Template) (rest : List Template)
    (happ : templates.filter (fun t => t.is_applicable g) = a :: rest) :
    0 < ((a :: rest).map Template.weight).sum ∧
    ∃ t : Template,
      selectWalk (a :: rest)
          ((next_u32 rng).1 % ((a :: rest).map Template.weight).sum) = some t ∧
      cumulativeChoice (a :: rest)
          ((next_u32 rng).1 % ((a :: rest).map Template.weight).sum) = some t ∧
      generate_event templates g rng = t.generate g (next_u32 rng).2 := by
  have htot : 0 < ((a :: rest).map Template.weight).sum := by
    rw [List.map_cons, List.sum_cons]
    have := template_weight_pos a
    omega
  obtain ⟨t, ht⟩ := selectWalk_isSome (a :: rest)
    ((next_u32 rng).1 % ((a :: rest).map Template.weight).sum)
    (Nat.mod_lt _ htot)
  refine ⟨htot, t, ht, by rw [← selectWalk_eq_cumulative]; exact ht, ?_⟩
  rw [generate_event_cons templates g rng a rest happ, ht]

/-- Witness for C4: the fresh world state (six applicable templates) with a
constant-zero random source. -/
theorem generate_event_weighted_choice_witness :
    0 < (([Template.UnknownSignal, Template.Derelict, Template.Anomaly,
        Template.FirstContact, Template.ThreatEmergence,
        Template.ResourceScarcity]).map Template.weight).sum ∧
    ∃ t : Template,
      selectWalk [Template.UnknownSignal, Template.Derelict, Template.Anomaly,
          Template.FirstContact, Template.ThreatEmergence, Template.ResourceScarcity]
          ((next_u32 { seq := fun _ => 0, pos := 0 }).1 %
            (([Template.UnknownSignal, Template.Derelict, Template.Anomaly,
              Template.FirstContact, Template.ThreatEmergence,
              Template.ResourceScarcity]).map Template.weight).sum) = some t ∧
      cumulativeChoice [Template.UnknownSignal, Template.Derelict, Template.Anomaly,
          Template.FirstContact, Template.ThreatEmergence, Template.ResourceScarcity]
          ((next_u32 { seq := fun _ => 0, pos := 0 }).1 %
            (([Template.UnknownSignal, Template.Derelict, Template.Anomaly,
              Template.FirstContact, Template.ThreatEmergence,
              Template.ResourceScarcity]).map Template.weight).sum) = some t ∧
      generate_event default_templates GalaxyState.new { seq := fun _ => 0, pos := 0 } =
        t.generate GalaxyState.new (next_u32 { seq := fun _ => 0, pos := 0 }).2 :=
  generate_event_weighted_choice default_templates GalaxyState.new
    { seq := fun _ => 0, pos := 0 } Template.UnknownSignal
    [Template.Derelict, Template.Anomaly, Template.FirstContact,
     Template.ThreatEmergence, Template.ResourceScarcity] (by decide)

end Council
